import Mathlib

/-!
Verification of the authentication / security core of the open-denkaru EMR
backend, shallowly embedded from the Python sources under
`src/backend/app/core/{security,rate_limiter,encryption}.py` and
`src/backend/app/api/endpoints/auth.py`.

Time is modelled as `Int` seconds (UTC); machine integers in the source are
Python arbitrary-precision ints, so `Int`/`Nat` are exact.  Cryptographic
primitives (RSA signatures, Argon2id, AES-GCM, PBKDF2) are modelled
symbolically: a signature verifies exactly under the signing keypair, a hash
verifies exactly the hashed password, an AEAD ciphertext decrypts exactly
under its encryption key and nonce.  Randomness (jti, nonces, session tokens)
is passed in as explicit arguments.
-/

namespace OpenDenkaru

/-! ## Configuration (src/backend/app/core/config.py) -/

/-- Value of `Settings.ACCESS_TOKEN_EXPIRE_MINUTES` (config.py): 15. -/
def access_token_expire_minutes : Int := 15

/-- Value of `Settings.REFRESH_TOKEN_EXPIRE_DAYS` (config.py): 7. -/
def refresh_token_expire_days : Int := 7

/-- Value of `Settings.MFA_REQUIRED` (config.py): False. -/
def mfa_required_setting : Bool := false

/-! ## JWT model (src/backend/app/core/security.py) -/

/-- The JWT claim set as assembled by `SecurityManager.create_access_token`
and `SecurityManager.create_refresh_token`.  A claim the source leaves out of
the dict is `none`. -/
structure Claims where
  sub : Option String
  exp : Option Int
  iat : Option Int
  nbf : Option Int
  typ : Option String
  permissions : List String
  mfa : Bool
  jti : String
  session_id : Option String
  deriving Repr, DecidableEq

/-- A token as produced by `jose.jwt.encode`: the claims, the algorithm
header, and the identity of the signing keypair.  Keypairs are opaque
identifiers; a signature verifies exactly when the verifying public key is
the signing keypair's public half. -/
structure JWT where
  claims : Claims
  alg : String
  keyId : Nat
  deriving Repr, DecidableEq

/-- The error `jose.JWTError`: the single error type every token-verification failure
surfaces as.  The message is carried but callers receive one uniform type. -/
structure JWTError where
  msg : String
  deriving Repr, DecidableEq

/-- Model of `jose.jwt.decode(token, public_pem, algorithms=["RS256"], options={...,
"require": ["exp", "iat", "sub", "type"]})` as invoked by
`SecurityManager.verify_token` (security.py lines 204-218): only RS256 is
accepted, only a signature by `pubKeyId` verifies, the claims exp/iat/sub/type
must be present, expiry is enforced at clock time `now`, and not-before is
enforced when the claim is present. -/
def jwtDecode (pubKeyId : Nat) (t : JWT) (now : Int) : Except JWTError Claims :=
  if t.alg ≠ "RS256" then
    .error ⟨"The specified alg value is not allowed"⟩
  else if t.keyId ≠ pubKeyId then
    .error ⟨"Signature verification failed"⟩
  else if t.claims.exp.isNone ∨ t.claims.iat.isNone ∨
      t.claims.sub.isNone ∨ t.claims.typ.isNone then
    .error ⟨"missing required claim"⟩
  else if t.claims.exp.getD 0 < now then
    .error ⟨"Signature has expired"⟩
  else if t.claims.nbf.getD now > now then
    .error ⟨"The token is not yet valid"⟩
  else
    .ok t.claims

/-- Identity of the process-wide RSA keypair generated by
`SecurityManager._load_or_generate_keys`. -/
def securityKeyId : Nat := 0

/-- Embedding of `SecurityManager.create_access_token` (security.py lines 126-163): claims
sub/exp/iat/nbf/type="access"/permissions/mfa/jti, signed RS256 with the
private key.  `now` is `datetime.now(timezone.utc)` in seconds, `jti` the
fresh `secrets.token_urlsafe(16)` value. -/
def create_access_token (user_id : String) (permissions : List String)
    (mfa_verified : Bool) (jti : String) (now : Int) : JWT :=
  { claims :=
      { sub := some user_id
        exp := some (now + access_token_expire_minutes * 60)
        iat := some now
        nbf := some now
        typ := some "access"
        permissions := permissions
        mfa := mfa_verified
        jti := jti
        session_id := none }
    alg := "RS256"
    keyId := securityKeyId }

/-- Embedding of `SecurityManager.create_refresh_token` (security.py lines 165-188): claims
sub/exp/iat/type="refresh"/session_id/jti; no nbf claim. -/
def create_refresh_token (user_id : String) (session_id : String)
    (jti : String) (now : Int) : JWT :=
  { claims :=
      { sub := some user_id
        exp := some (now + refresh_token_expire_days * 24 * 60 * 60)
        iat := some now
        nbf := none
        typ := some "refresh"
        permissions := []
        mfa := false
        jti := jti
        session_id := some session_id }
    alg := "RS256"
    keyId := securityKeyId }

/-- Embedding of `SecurityManager.verify_token` (security.py lines 190-229): decode with
the public key and RS256 only, then reject when the type claim differs from
`token_type`.  Every failure path raises the one `JWTError` type. -/
def verify_token (t : JWT) (token_type : String) (now : Int) :
    Except JWTError Claims :=
  match jwtDecode securityKeyId t now with
  | .error e => .error e
  | .ok claims =>
      if claims.typ ≠ some token_type then
        .error ⟨"Invalid token type. Expected " ++ token_type⟩
      else
        .ok claims

/-- True on the `error` branch of an `Except`. -/
def isError {ε α : Type} : Except ε α → Bool
  | .error _ => true
  | .ok _ => false

/-! ## Python `uuid.UUID(string)` model -/

/-- Hex-digit test matching Python's `int(_, 16)` digit set. -/
def isHexDigit (c : Char) : Bool :=
  c.isDigit || ('a' ≤ c && c ≤ 'f') || ('A' ≤ c && c ≤ 'F')

/-- Whether `uuid.UUID(s)` succeeds: after removing dashes the string must be
32 hexadecimal digits.  (The urn/brace forms Python also accepts never occur
in this code base; every id the code parses is either a canonical UUID string
or a `secrets.token_urlsafe` value.) -/
def pyUUIDOk (s : String) : Bool :=
  let t := s.data.filter (fun c => c ≠ '-')
  t.length = 32 && t.all isHexDigit

/-- The value `uuid.UUID(s)` compares by: dashes dropped, case folded. -/
def uuidNorm (s : String) : String :=
  String.mk ((s.data.filter (fun c => c ≠ '-')).map Char.toLower)

/-! ## Password model (security.py, Argon2id) -/

/-- Model of an Argon2id hash string produced by `ph.hash`: the hash
determines the unique password it verifies (collision freedom of Argon2id),
plus a staleness flag driving `ph.check_needs_rehash`. -/
structure PHash where
  pw : String
  stale : Bool
  deriving Repr, DecidableEq

/-- Embedding of `SecurityManager.hash_password`: a fresh hash under current parameters. -/
def hash_password (password : String) : PHash :=
  ⟨password, false⟩

/-- Embedding of `SecurityManager.verify_password`: true exactly when the password matches
the hash; mismatches and malformed hashes return false, never raise. -/
def verify_password (password : String) (hashed : PHash) : Bool :=
  password = hashed.pw

/-- Embedding of `SecurityManager.needs_rehash`. -/
def needs_rehash (hashed : PHash) : Bool :=
  hashed.stale

/-! ## Risk scoring (security.py lines 266-304) -/

/-- Embedding of `SecurityManager.calculate_risk_score`: additive heuristic over failed
attempts, unusual time, new device; ip and user agent are received but unused
(the source's TODO branches).  Result is clamped to 100. -/
def calculate_risk_score (_ip_address _user_agent : String)
    (failed_attempts : Nat) (unusual_time : Bool) (new_device : Bool) : Nat :=
  let score := 0 + min (failed_attempts * 10) 30
  let score := score + (if unusual_time then 20 else 0)
  let score := score + (if new_device then 25 else 0)
  min score 100

/-! ## Account rows and the request gates (endpoints/auth.py, auth_deps.py) -/

/-- The `User` account row (`app.models.user.User`) as read and mutated by the
auth endpoints; the field set and semantics are taken from their uses in
endpoints/auth.py. -/
structure UserRec where
  id : String
  username : String
  email : String
  full_name : String
  hashed_password : PHash
  failed_login_attempts : Nat
  locked_until : Option Int
  mfa_enabled : Bool
  mfa_secret : Option String
  is_active : Bool
  last_login_at : Option Int
  deriving Repr, DecidableEq

/-- The `CurrentUser` response schema (app/schemas/auth.py). -/
structure CurrentUser where
  id : String
  username : String
  email : String
  full_name : String
  roles : List String
  permissions : List String
  mfa_enabled : Bool
  is_active : Bool
  last_login_at : Option Int
  current_session_id : String
  deriving Repr, DecidableEq

/-- Embedding of `get_current_user` in src/backend/app/api/endpoints/auth.py (lines
58-119): verify the bearer token as an access token, parse its subject as a
UUID, fetch an active user with that id, fetch roles (`rolesOf` stands for the
Role/UserRole join), and build the `CurrentUser` — whose
`current_session_id` field parses `claims["jti"]` as a UUID.  Every failure
inside the `try` collapses to HTTP 401. -/
def gate_get_current_user (db : List UserRec) (rolesOf : String → List String)
    (tok : JWT) (now : Int) : Except String CurrentUser :=
  match verify_token tok "access" now with
  | .error _ => .error "Invalid authentication credentials"
  | .ok claims =>
      let sub := claims.sub.getD ""
      if ¬ pyUUIDOk sub then .error "Invalid authentication credentials"
      else
        match db.find? (fun u => uuidNorm u.id == uuidNorm sub && u.is_active) with
        | none => .error "User not found or inactive"
        | some user =>
            if ¬ pyUUIDOk claims.jti then
              .error "Invalid authentication credentials"
            else
              .ok { id := user.id
                    username := user.username
                    email := user.email
                    full_name := user.full_name
                    roles := rolesOf user.id
                    permissions := claims.permissions.dedup
                    mfa_enabled := user.mfa_enabled
                    is_active := user.is_active
                    last_login_at := user.last_login_at
                    current_session_id := uuidNorm claims.jti }

/-- Embedding of `get_current_user` in src/backend/app/core/auth_deps.py (lines 20-50):
verify the access token, parse the subject as a UUID, fetch the user by
primary key (no is_active filter at this layer), 401 on any failure. -/
def authDeps_get_current_user (db : List UserRec) (tok : JWT) (now : Int) :
    Except String UserRec :=
  match verify_token tok "access" now with
  | .error _ => .error "Could not validate credentials"
  | .ok claims =>
      let sub := claims.sub.getD ""
      if ¬ pyUUIDOk sub then .error "Could not validate credentials"
      else
        match db.find? (fun u => uuidNorm u.id == uuidNorm sub) with
        | none => .error "Could not validate credentials"
        | some u => .ok u

/-! ## The login endpoint (endpoints/auth.py lines 122-274) -/

/-- A `UserSession` row as created by login. -/
structure SessionRec where
  id : String
  user_id : String
  session_token : String
  refresh_token : Option JWT
  expires_at : Int
  is_active : Bool
  deriving Repr, DecidableEq

/-- An `AuditLog` row as created by `log_audit`. -/
structure AuditRec where
  user_id : Option String
  action : String
  success : Bool
  error_message : Option String
  risk_score : Nat
  timestamp : Int
  deriving Repr, DecidableEq

/-- The `TokenResponse` schema (app/schemas/auth.py); the empty-string token
fields of the MFA-challenge response are modelled as `none`. -/
structure TokenResponse where
  access_token : Option JWT
  refresh_token : Option JWT
  token_type : String
  expires_in : Int
  mfa_required : Bool
  mfa_setup_required : Bool
  deriving Repr, DecidableEq

/-- The schema `LoginRequest` (app/schemas/auth.py); the schema's mfa_token pattern
forbids the empty string, so Python truthiness coincides with `isSome`. -/
structure LoginRequest where
  username : String
  password : String
  mfa_token : Option String
  deriving Repr, DecidableEq

/-- Client context of the HTTP request (peer ip, User-Agent header). -/
structure ClientCtx where
  ip : String
  user_agent : String
  deriving Repr, DecidableEq

/-- Fresh random values drawn during one login: the new session id,
`generate_session_token()`, and the jti of each minted token. -/
structure Fresh where
  session_id : String
  session_token : String
  access_jti : String
  refresh_jti : String
  deriving Repr, DecidableEq

/-- Persistent state touched by the login flow: account rows, session rows,
audit rows. -/
structure AuthState where
  users : List UserRec
  sessions : List SessionRec
  audits : List AuditRec
  deriving Repr, DecidableEq

/-- Outcome of one login call: the HTTP response (`error` = the 401 detail
string), the post state, which user id `calculate_risk_score` was invoked for
(`none` when the scorer never ran on this attempt), and the tokens minted. -/
structure LoginOutcome where
  response : Except String TokenResponse
  state : AuthState
  risk_computed_for : Option String
  minted : List JWT
  deriving Repr

/-- The role → permission expansion hardcoded in the login endpoint
(auth.py lines 225-230). -/
def role_permissions : String → List String
  | "doctor" => ["read_patient", "write_patient", "write_prescription"]
  | "nurse" => ["read_patient", "update_patient", "read_prescription"]
  | _ => []

/-- ORM mutation of the matched account row: the row fetched by
`username == login_data.username` is replaced by its updated value. -/
def updateUserByUsername (users : List UserRec) (username : String)
    (u' : UserRec) : List UserRec :=
  users.map (fun v => if v.username == username then u' else v)

/-- The `login` endpoint (endpoints/auth.py lines 122-274).  `totpVerify`
stands for `pyotp.TOTP(secret).verify(token, valid_window=1)`; `rolesOf` for
the Role/UserRole join.  `now` is the request's clock time in seconds. -/
def login (totpVerify : Option String → String → Bool)
    (rolesOf : String → List String) (st : AuthState) (req : LoginRequest)
    (ctx : ClientCtx) (fresh : Fresh) (now : Int) : LoginOutcome :=
  let user? := st.users.find? (fun u => u.username == req.username)
  let risk : Nat :=
    match user? with
    | some u =>
        calculate_risk_score ctx.ip ctx.user_agent u.failed_login_attempts
          false true
    | none => 0
  match user? with
  | none =>
      { response := .error "Invalid credentials"
        state := { st with audits :=
          ⟨none, "login_failed", false,
            some "Invalid credentials or account locked", risk, now⟩ ::
            st.audits }
        risk_computed_for := none
        minted := [] }
  | some user =>
    let locked : Bool :=
      match user.locked_until with
      | some t => t > now
      | none => false
    if locked then
      { response := .error "Invalid credentials"
        state := { st with audits :=
          ⟨none, "login_failed", false,
            some "Invalid credentials or account locked", risk, now⟩ ::
            st.audits }
        risk_computed_for := some user.id
        minted := [] }
    else if ¬ verify_password req.password user.hashed_password then
      let failed' := user.failed_login_attempts + 1
      let user' := { user with
        failed_login_attempts := failed'
        locked_until :=
          if failed' ≥ 5 then some (now + 30 * 60) else user.locked_until }
      { response := .error "Invalid credentials"
        state := { st with
          users := updateUserByUsername st.users req.username user'
          audits := ⟨some user.id, "login_failed", false,
            some "Invalid password", risk, now⟩ :: st.audits }
        risk_computed_for := some user.id
        minted := [] }
    else
      let user₁ :=
        if needs_rehash user.hashed_password then
          { user with hashed_password := hash_password req.password }
        else user
      if user.mfa_enabled && req.mfa_token.isNone then
        { response := .ok
            { access_token := none
              refresh_token := none
              token_type := "bearer"
              expires_in := 0
              mfa_required := true
              mfa_setup_required := false }
          state := { st with
            users := updateUserByUsername st.users req.username user₁
            audits := ⟨some user.id, "login_mfa_required", true, none, risk,
              now⟩ :: st.audits }
          risk_computed_for := some user.id
          minted := [] }
      else if user.mfa_enabled &&
          (match req.mfa_token with
           | some mt => ! totpVerify user.mfa_secret mt
           | none => false) then
        { response := .error "Invalid MFA token"
          state := { st with
            users := updateUserByUsername st.users req.username user₁
            audits := ⟨some user.id, "login_mfa_failed", false,
              some "Invalid MFA token", risk, now⟩ :: st.audits }
          risk_computed_for := some user.id
          minted := [] }
      else
        let permissions := (rolesOf user.id).flatMap role_permissions
        let session : SessionRec :=
          { id := fresh.session_id
            user_id := user.id
            session_token := fresh.session_token
            refresh_token := none
            expires_at := now + refresh_token_expire_days * 24 * 60 * 60
            is_active := true }
        let user₂ := { user₁ with
          last_login_at := some now
          failed_login_attempts := 0
          locked_until := none }
        let access := create_access_token user.id permissions
          (user.mfa_enabled && req.mfa_token.isSome) fresh.access_jti now
        let refresh := create_refresh_token user.id fresh.session_id
          fresh.refresh_jti now
        let session' := { session with refresh_token := some refresh }
        { response := .ok
            { access_token := some access
              refresh_token := some refresh
              token_type := "bearer"
              expires_in := access_token_expire_minutes * 60
              mfa_required := false
              mfa_setup_required := !user.mfa_enabled && mfa_required_setting }
          state :=
            { users := updateUserByUsername st.users req.username user₂
              sessions := session' :: st.sessions
              audits := ⟨some user.id, "login_success", true, none, risk,
                now⟩ :: st.audits }
          risk_computed_for := some user.id
          minted := [access, refresh] }

/-! ## Rate limiter (src/backend/app/core/rate_limiter.py) -/

/-- One entry of the `self.limits` table: request cap and window seconds. -/
structure RLConfig where
  requests : Nat
  window : Int
  deriving Repr, DecidableEq

/-- The `self.limits` dict (rate_limiter.py lines 25-40). -/
def limits : String → Option RLConfig
  | "auth:login" => some ⟨5, 300⟩
  | "auth:register" => some ⟨3, 3600⟩
  | "auth:password_reset" => some ⟨3, 3600⟩
  | "api:authenticated" => some ⟨1000, 3600⟩
  | "api:unauthenticated" => some ⟨100, 3600⟩
  | "emergency:access" => some ⟨2000, 3600⟩
  | "admin:operations" => some ⟨500, 3600⟩
  | _ => none

/-- The rate-limit info dict returned beside the decision. -/
structure RateInfo where
  limit : Nat
  remaining : Int
  reset : Int
  window : Int
  deriving Repr, DecidableEq

/-- The Redis state behind one `(client key, limit class)` pair: the sorted
set of request timestamps (member `str(now)` with score `now`, hence one
entry per distinct second) and the key's absolute expiry time. -/
structure RLState where
  window : List Int
  expires_at : Option Int
  deriving Repr, DecidableEq

/-- Redis `zremrangebyscore(key, 0, window_start)`: drop members with score in
`[0, window_start]`. -/
def zremrange (w : List Int) (window_start : Int) : List Int :=
  w.filter (fun t => decide (¬ (0 ≤ t ∧ t ≤ window_start)))

/-- Redis `zadd(key, {str(now): now})`: member insert keyed by the decimal string
of `now`; a same-second member is overwritten in place, not duplicated. -/
def zaddNow (w : List Int) (now : Int) : List Int :=
  if now ∈ w then w else now :: w

/-- The pipeline body of `RateLimiter.is_rate_limited` (rate_limiter.py lines
111-142): prune, count the pruned set, add the current timestamp, reset the
TTL to `window_seconds + 1`, then reject iff the count reached the cap. -/
def slidingCheck (cfg : RLConfig) (s : RLState) (now : Int) :
    (Bool × RateInfo) × RLState :=
  let window_start := now - cfg.window
  let pruned := zremrange s.window window_start
  let current : Nat := pruned.length
  let s' : RLState := ⟨zaddNow pruned now, some (now + cfg.window + 1)⟩
  let info : RateInfo :=
    { limit := cfg.requests
      remaining := max 0 ((cfg.requests : Int) - current - 1)
      reset := now + cfg.window
      window := cfg.window }
  if current ≥ cfg.requests then ((true, info), s') else ((false, info), s')

/-- Embedding of `RateLimiter.is_rate_limited` (lines 83-146): resolve the limit class
(unknown class: unlimited), run the pipeline; `storeOk = false` models
`redis.RedisError` raised by the pipeline, caught by the fail-open handler
that allows the request and leaves the store untouched.  `none` info models
the empty `{}` dict. -/
def is_rate_limited (storeOk : Bool) (limit_key : String) (s : RLState)
    (now : Int) : (Bool × Option RateInfo) × RLState :=
  match limits limit_key with
  | none => ((false, none), s)
  | some cfg =>
      if storeOk then
        let ((lim, info), s') := slidingCheck cfg s now
        ((lim, some info), s')
      else
        ((false, none), s)

/-- Embedding of `RateLimiter.get_retry_after`. -/
def get_retry_after (reset_time now : Int) : Int :=
  max 1 (reset_time - now)

/-- A sequence of checks against one key, returning the final store state and
the per-request rejection flags in order. -/
def processReqs (cfg : RLConfig) (s : RLState) (times : List Int) :
    RLState × List Bool :=
  match times with
  | [] => (s, [])
  | t :: ts =>
      let r := slidingCheck cfg s t
      let rest := processReqs cfg r.2 ts
      (rest.1, r.1.1 :: rest.2)

/-! ## Field encryption (src/backend/app/core/encryption.py) -/

/-- The salt `_derive_key` builds deterministically:
`context.encode('utf-8').ljust(16, b'\0')[:16]` (the labels are ASCII). -/
def deriveSalt (context : String) : List Char :=
  (context.data ++ List.replicate (16 - context.length) '\x00').take 16

/-- A derived AES-256 key: PBKDF2-HMAC-SHA256(masterKey, salt) is modelled as
the pair of the (opaque) master key and the salt; two derived keys coincide
exactly when master key and salt coincide. -/
structure EncKey where
  master : Nat
  salt : List Char
  deriving Repr, DecidableEq

/-- The data types registered by `_initialize_keys` (encryption.py 75-85). -/
def known_field_types : List String :=
  ["patient_name", "patient_phone", "patient_address", "patient_email",
   "medical_record", "prescription_data", "lab_result", "session_data",
   "audit_details"]

/-- The map `self.encryption_keys[field_type]`: present exactly for the registered
data types, each holding the key derived from the master key and the label's
salt. -/
def encryption_keys (master : Nat) (field_type : String) : Option EncKey :=
  if field_type ∈ known_field_types then some ⟨master, deriveSalt field_type⟩
  else none

/-- An AES-256-GCM ciphertext (nonce ‖ ciphertext ‖ tag): authenticated
decryption succeeds exactly under the encrypting key, returning the
plaintext; any other key fails the tag check. -/
structure GCMCipher where
  key : EncKey
  nonce : List Char
  plaintext : String
  deriving Repr, DecidableEq

/-- A value of an encrypted column: either a raw string passed through
unchanged, or the base64 blob `nonce ‖ ciphertext ‖ tag` (base64 is an
injective encoding, so the blob is modelled structurally). -/
inductive FieldVal
  | plain (s : String)
  | blob (c : GCMCipher)
  deriving Repr, DecidableEq

/-- Embedding of `MedicalDataEncryption.encrypt_field` (encryption.py lines 103-147):
empty input passes through; an unregistered field type raises (wrapped into
`RuntimeError`); otherwise AES-GCM under the field type's derived key with
the fresh 96-bit `nonce`. -/
def encrypt_field (master : Nat) (data : String) (field_type : String)
    (nonce : List Char) : Except String FieldVal :=
  if data = "" then .ok (.plain data)
  else
    match encryption_keys master field_type with
    | none => .error ("Encryption failed: Unknown field type: " ++ field_type)
    | some key => .ok (.blob ⟨key, nonce, data⟩)

/-- Embedding of `MedicalDataEncryption.decrypt_field` (encryption.py lines 149-197):
empty input passes through; an unregistered field type raises; a blob is
authenticated-decrypted under the field type's key, failing on tag mismatch;
a non-empty non-blob string fails base64/GCM parsing. -/
def decrypt_field (master : Nat) (v : FieldVal) (field_type : String) :
    Except String String :=
  match v with
  | .plain s =>
      if s = "" then .ok s
      else .error "Decryption failed"
  | .blob c =>
      match encryption_keys master field_type with
      | none =>
          .error ("Decryption failed: Unknown field type: " ++ field_type)
      | some key =>
          if c.key = key then .ok c.plaintext
          else .error "Decryption failed"

/-! ## Derived definitions and test fixtures -/

/-- The data-model invariant of C8: a set lock implies the failure counter
reached the lockout threshold 5. -/
def lockInv (u : UserRec) : Prop :=
  u.locked_until ≠ none → 5 ≤ u.failed_login_attempts

/-- Modelled from the spec: account creation is outside the auth cluster
(the `app.models.user` module is not under src); per the spec's data model
(§3, Account) a fresh account starts with `failedLoginAttempts = 0` and
`lockedUntil` unset. -/
def freshAccount (id uname email name : String) (h : PHash) (mfaE : Bool)
    (sec : Option String) : UserRec :=
  ⟨id, uname, email, name, h, 0, none, mfaE, sec, true, none⟩

/-- Test fixture for the lockout witness: one clean account "alice" whose
password is "Secret". -/
def c3User : UserRec :=
  ⟨"u-1", "alice", "a@example.com", "Alice", ⟨"Secret", false⟩, 0, none,
    false, none, true, none⟩

/-- Lockout witness fixture: one login call against "alice" with fixed
client context, fresh values and no TOTP. -/
def c3Login (st : AuthState) (p : String) (t : Int) : LoginOutcome :=
  login (fun _ _ => false) (fun _ => []) st ⟨"alice", p, none⟩ ⟨"ip", "ua"⟩
    ⟨"sid", "stok", "j1", "j2"⟩ t

/-- Gate fixture: an existing active account, id written as 32 hex digits. -/
def gateDemoUser : UserRec :=
  ⟨"0123456789abcdef0123456789abcdef", "tanaka", "t@example.com", "Tanaka",
    ⟨"Secret", false⟩, 0, none, false, none, true, none⟩

/-- Gate fixture: an access token freshly minted for that account; the jti
has the shape `secrets.token_urlsafe(16)` produces — 22 url-safe
characters. -/
def gateDemoToken : JWT :=
  create_access_token gateDemoUser.id ["read_patient"] false
    "AAAAAAAAAAAAAAAAAAAAAA" 0

/-! ## Helper lemmas -/

/-- Decoding only ever returns the token's own claim set. -/
lemma jwtDecode_ok_eq {k : Nat} {t : JWT} {now : Int} {c : Claims}
    (h : jwtDecode k t now = .ok c) : c = t.claims := by
  unfold jwtDecode at h
  repeat' split at h
  all_goals simp_all

/-- The salts `_derive_key` builds from the nine registered data-class labels
are pairwise distinct, so the derived keys are pairwise distinct. -/
lemma deriveSalt_inj_known :
    ∀ c₁ ∈ known_field_types, ∀ c₂ ∈ known_field_types,
      c₁ ≠ c₂ → deriveSalt c₁ ≠ deriveSalt c₂ := by decide

/-- A freshly minted refresh token decodes successfully at mint time: the
signature verifies and all required claims are present. -/
lemma jwtDecode_mint_refresh (uid sid jti : String) (now : Int) :
    jwtDecode securityKeyId (create_refresh_token uid sid jti now) now
      = .ok (create_refresh_token uid sid jti now).claims := by
  unfold jwtDecode create_refresh_token
  simp [refresh_token_expire_days, securityKeyId]

/-- A freshly minted access token decodes successfully at mint time. -/
lemma jwtDecode_mint_access (uid : String) (perms : List String) (mfa : Bool)
    (jti : String) (now : Int) :
    jwtDecode securityKeyId (create_access_token uid perms mfa jti now) now
      = .ok (create_access_token uid perms mfa jti now).claims := by
  unfold jwtDecode create_access_token
  simp [access_token_expire_minutes, securityKeyId]

/-- A decode failure makes `verify_token` fail. -/
lemma verify_err_of_decode_err {t : JWT} {ttype : String} {now : Int}
    (h : isError (jwtDecode securityKeyId t now) = true) :
    isError (verify_token t ttype now) = true := by
  unfold verify_token
  cases hd : jwtDecode securityKeyId t now with
  | error e => simp [isError]
  | ok c => rw [hd] at h; simp [isError] at h

/-! ## C6 — rate limiter fails open when the store is unreachable -/

/-- C6: when the Redis pipeline raises (`storeOk = false`), the check returns
not-limited with empty info and leaves the store untouched — the request is
allowed rather than failing or blocking (rate_limiter.py lines 144-146). -/
theorem rate_limit_fail_open (limit_key : String) (s : RLState) (now : Int) :
    is_rate_limited false limit_key s now = ((false, none), s) := by
  unfold is_rate_limited
  cases h : limits limit_key <;> simp

/-! ## C4 — verify_token pins algorithm and key, and isolates token types -/

/-- C4: `verify_token` rejects any token whose type claim differs from the
expected type — in particular a freshly minted refresh token presented as an
access token and vice versa, whose signatures do verify — and it accepts only
RS256 signed by the service keypair, requiring exp/iat/sub/type to be
present; every failure is the one uniform `JWTError`. -/
theorem verify_token_type_isolation :
    (∀ (uid sid jti : String) (now : Int),
      isError (jwtDecode securityKeyId (create_refresh_token uid sid jti now)
        now) = false ∧
      isError (verify_token (create_refresh_token uid sid jti now) "access"
        now) = true) ∧
    (∀ (uid : String) (perms : List String) (mfa : Bool) (jti : String)
        (now : Int),
      isError (jwtDecode securityKeyId
        (create_access_token uid perms mfa jti now) now) = false ∧
      isError (verify_token (create_access_token uid perms mfa jti now)
        "refresh" now) = true) ∧
    (∀ (t : JWT) (ttype : String) (now : Int),
      t.claims.typ ≠ some ttype → isError (verify_token t ttype now) = true) ∧
    (∀ (t : JWT) (ttype : String) (now : Int),
      t.alg ≠ "RS256" → isError (verify_token t ttype now) = true) ∧
    (∀ (t : JWT) (ttype : String) (now : Int),
      t.keyId ≠ securityKeyId → isError (verify_token t ttype now) = true) ∧
    (∀ (t : JWT) (ttype : String) (now : Int),
      t.claims.exp = none ∨ t.claims.iat = none ∨ t.claims.sub = none ∨
        t.claims.typ = none →
      isError (verify_token t ttype now) = true) := by
  refine ⟨?_, ?_, ?_, ?_, ?_, ?_⟩
  · intro uid sid jti now
    constructor
    · rw [jwtDecode_mint_refresh]; rfl
    · unfold verify_token
      rw [jwtDecode_mint_refresh]
      simp [create_refresh_token, isError]
  · intro uid perms mfa jti now
    constructor
    · rw [jwtDecode_mint_access]; rfl
    · unfold verify_token
      rw [jwtDecode_mint_access]
      simp [create_access_token, isError]
  · intro t ttype now h
    unfold verify_token
    cases hd : jwtDecode securityKeyId t now with
    | error e => simp [isError]
    | ok c =>
        have hc := jwtDecode_ok_eq hd
        subst hc
        simp [isError, h]
  · intro t ttype now h
    exact verify_err_of_decode_err (by simp [jwtDecode, h, isError])
  · intro t ttype now h
    refine verify_err_of_decode_err ?_
    by_cases ha : t.alg = "RS256" <;> simp [jwtDecode, ha, h, isError]
  · intro t ttype now h
    refine verify_err_of_decode_err ?_
    rcases h with h | h | h | h <;>
      by_cases ha : t.alg = "RS256" <;>
        by_cases hk : t.keyId = securityKeyId <;>
          simp [jwtDecode, ha, hk, h, isError]

/-- Witness for C4 at concrete inputs: a refresh token minted at time 0 for
user "u" and session "s" has a valid signature yet is rejected as an access
token, and symmetrically. -/
theorem verify_token_type_isolation_witness :
    isError (jwtDecode securityKeyId (create_refresh_token "u" "s" "j" 0) 0)
        = false ∧
    isError (verify_token (create_refresh_token "u" "s" "j" 0) "access" 0)
        = true ∧
    isError (verify_token (create_access_token "u" [] false "j" 0)
        "refresh" 0) = true := by
  refine ⟨(verify_token_type_isolation.1 "u" "s" "j" 0).1,
    (verify_token_type_isolation.1 "u" "s" "j" 0).2, ?_⟩
  exact verify_token_type_isolation.2.2.1
    (create_access_token "u" [] false "j" 0) "refresh" 0 (by decide)

/-! ## C5 — field encryption round-trip, passthrough, cross-label failure -/

/-- C5: for every non-empty plaintext and registered data-class label the
decrypt of the encrypt is the identity; empty input passes through both
directions unchanged; and a blob encrypted under one registered label fails
to decrypt under a different one (the derived keys differ, so the GCM tag
check fails). -/
theorem encrypt_decrypt_field_roundtrip :
    (∀ (master : Nat) (s c : String) (nonce : List Char),
      s ≠ "" → c ∈ known_field_types →
      (encrypt_field master s c nonce).bind
        (fun v => decrypt_field master v c) = .ok s) ∧
    (∀ (master : Nat) (c : String) (nonce : List Char),
      encrypt_field master "" c nonce = .ok (.plain "") ∧
      decrypt_field master (.plain "") c = .ok "") ∧
    (∀ (master : Nat) (s c₁ c₂ : String) (nonce : List Char),
      s ≠ "" → c₁ ∈ known_field_types → c₂ ∈ known_field_types → c₁ ≠ c₂ →
      isError ((encrypt_field master s c₁ nonce).bind
        (fun v => decrypt_field master v c₂)) = true) := by
  refine ⟨?_, ?_, ?_⟩
  · intro master s c nonce hs hc
    simp [encrypt_field, decrypt_field, encryption_keys, hs, hc, Except.bind]
  · intro master c nonce
    exact ⟨by simp [encrypt_field], by simp [decrypt_field]⟩
  · intro master s c₁ c₂ nonce hs h₁ h₂ hne
    have hsalt := deriveSalt_inj_known c₁ h₁ c₂ h₂ hne
    simp [encrypt_field, decrypt_field, encryption_keys, hs, h₁, h₂,
      isError, hsalt, Except.bind, EncKey.mk.injEq]

/-- Witness for C5: encrypting the name "Taro" as `patient_name` round-trips,
the empty string passes through, and decrypting the same blob as
`patient_phone` fails. -/
theorem encrypt_decrypt_field_roundtrip_witness :
    (encrypt_field 0 "Taro" "patient_name" []).bind
      (fun v => decrypt_field 0 v "patient_name") = .ok "Taro" ∧
    encrypt_field 0 "" "patient_name" [] = .ok (.plain "") ∧
    isError ((encrypt_field 0 "Taro" "patient_name" []).bind
      (fun v => decrypt_field 0 v "patient_phone")) = true := by
  refine ⟨encrypt_decrypt_field_roundtrip.1 0 "Taro" "patient_name" []
      (by decide) (by decide),
    (encrypt_decrypt_field_roundtrip.2.1 0 "patient_name" []).1,
    encrypt_decrypt_field_roundtrip.2.2 0 "Taro" "patient_name"
      "patient_phone" [] (by decide) (by decide) (by decide) (by decide)⟩

/-! ## Rate limiter lemmas -/

/-- One pipeline round on a window that the prune leaves whole and that does
not already contain the current second: the request is rejected exactly when
the count reached the cap, the timestamp is prepended, the TTL is reset. -/
lemma slidingCheck_step (cfg : RLConfig) (w : List Int) (e : Option Int)
    (t : Int) (hprune : zremrange w (t - cfg.window) = w) (hmem : t ∉ w) :
    slidingCheck cfg ⟨w, e⟩ t =
      ((decide (cfg.requests ≤ w.length),
        ⟨cfg.requests, max 0 ((cfg.requests : Int) - w.length - 1),
          t + cfg.window, cfg.window⟩),
       ⟨t :: w, some (t + cfg.window + 1)⟩) := by
  simp only [slidingCheck, hprune, zaddNow, if_neg hmem]
  by_cases hc : cfg.requests ≤ w.length
  · rw [if_pos hc]; simp [hc]
  · rw [if_neg hc]; simp [hc]

/-- Flags of a run of checks at strictly increasing, pairwise-within-window
times over a base window every element of which is older than every arriving
time yet survives every prune: the i-th check (0-based) is rejected exactly
when `baseCount + i` reached the cap. -/
lemma processReqs_flags (cfg : RLConfig) :
    ∀ (ts : List Int) (w : List Int) (e : Option Int),
      (∀ x ∈ w, ∀ u ∈ ts, u - cfg.window < x) →
      (∀ x ∈ w, ∀ u ∈ ts, x < u) →
      List.Pairwise (fun a b => a < b ∧ b < a + cfg.window) ts →
      (processReqs cfg ⟨w, e⟩ ts).2 =
        (List.range ts.length).map
          (fun i => decide (cfg.requests ≤ w.length + i)) := by
  intro ts
  induction ts with
  | nil => intro w e _ _ _; rfl
  | cons t ts ih =>
      intro w e hw1 hw2 hts
      obtain ⟨hhead, htail⟩ := List.pairwise_cons.mp hts
      have hprune : zremrange w (t - cfg.window) = w := by
        apply List.filter_eq_self.mpr
        intro x hx
        have hx1 := hw1 x hx t (List.mem_cons_self _ _)
        simp only [decide_eq_true_eq]
        omega
      have hmem : t ∉ w := by
        intro hm
        exact absurd (hw2 t hm t (List.mem_cons_self _ _)) (lt_irrefl t)
      have hstep := slidingCheck_step cfg w e t hprune hmem
      simp only [processReqs, hstep]
      have ihr := ih (t :: w) (some (t + cfg.window + 1))
        (by
          intro x hx u hu
          rcases List.mem_cons.mp hx with hx | hx
          · subst hx
            have := hhead u hu
            omega
          · exact hw1 x hx u (List.mem_cons_of_mem _ hu))
        (by
          intro x hx u hu
          rcases List.mem_cons.mp hx with hx | hx
          · subst hx
            exact (hhead u hu).1
          · exact hw2 x hx u (List.mem_cons_of_mem _ hu))
        htail
      simp only [ihr, List.length_cons, List.range_succ_eq_map,
        List.map_cons, List.map_map]
      simp only [List.cons.injEq]
      refine ⟨decide_eq_decide.mpr (by omega), List.map_congr_left ?_⟩
      intro i _
      simp only [Function.comp_apply, List.length_cons]
      exact decide_eq_decide.mpr (by omega)

/-- What one pipeline round does, for any pre-state and outcome. -/
lemma slidingCheck_spec (cfg : RLConfig) (s : RLState) (now : Int) :
    (slidingCheck cfg s now).2.window =
      zaddNow (zremrange s.window (now - cfg.window)) now ∧
    (slidingCheck cfg s now).2.expires_at = some (now + cfg.window + 1) ∧
    ((slidingCheck cfg s now).1.1 = true ↔
      cfg.requests ≤ (zremrange s.window (now - cfg.window)).length) := by
  unfold slidingCheck
  by_cases hc : cfg.requests ≤ (zremrange s.window (now - cfg.window)).length
  · rw [if_pos hc]; simp [hc]
  · rw [if_neg hc]; simp [hc]

/-- A check on a window holding only entries at least one full window old is
allowed (for a positive cap): the prune empties the set. -/
lemma slidingCheck_allows_after_gap (cfg : RLConfig) (s : RLState) (now : Int)
    (hpos : 0 < cfg.requests)
    (hold : ∀ x ∈ s.window, 0 ≤ x ∧ x ≤ now - cfg.window) :
    (slidingCheck cfg s now).1.1 = false := by
  have hprune : zremrange s.window (now - cfg.window) = [] := by
    simp only [zremrange, List.filter_eq_nil_iff]
    intro x hx
    have := hold x hx
    simp only [decide_eq_true_eq]
    omega
  simp only [slidingCheck, hprune, List.length_nil]
  rw [if_neg (by omega : ¬ (0 ≥ cfg.requests))]

/-- The current second is always a member after the pipeline's zadd. -/
lemma mem_zaddNow (w : List Int) (now : Int) : now ∈ zaddNow w now := by
  unfold zaddNow
  split
  · assumption
  · exact List.mem_cons_self _ _

/-! ## C2 — sliding-window semantics of `is_rate_limited` -/

/-- C2 counterexample: with the `auth:login` config (limit 5, window 300s),
(a) a check on a full window is rejected and yet inserts the current
timestamp into the set — the code's zadd is unconditional, while the claim
says a rejected check inserts nothing; and (b) six requests arriving in the
same second collapse into one sorted-set member (`str(now)` keyed), so all
six are allowed — the claim's "the (N+1)th is rejected" fails for
same-second arrivals. -/
theorem rate_limit_claim_counterexample :
    (slidingCheck ⟨5, 300⟩ ⟨[10, 11, 12, 13, 14], some 315⟩ 20).1.1 = true ∧
    20 ∈ (slidingCheck ⟨5, 300⟩ ⟨[10, 11, 12, 13, 14], some 315⟩ 20).2.window ∧
    (processReqs ⟨5, 300⟩ ⟨[], none⟩ [100, 100, 100, 100, 100, 100]).2 =
      [false, false, false, false, false, false] := by decide

/-- C2 (amended): each check atomically drops the entries with timestamp in
`[0, now-W]`, counts the remainder, rejects exactly when the count reached N,
and inserts the current timestamp unconditionally (one member per distinct
second) while resetting the TTL to W+1; starting from an empty window, for
requests at strictly increasing times each within one window of every earlier
one, the i-th check (0-based) is rejected exactly when i ≥ N — so the first
N are allowed and the (N+1)th is rejected; and once every recorded entry is
at least one window old, a new request is allowed again. -/
theorem rate_limit_sliding_window :
    (∀ (cfg : RLConfig) (s : RLState) (now : Int),
      (slidingCheck cfg s now).2.window =
        zaddNow (zremrange s.window (now - cfg.window)) now ∧
      (slidingCheck cfg s now).2.expires_at = some (now + cfg.window + 1) ∧
      ((slidingCheck cfg s now).1.1 = true ↔
        cfg.requests ≤ (zremrange s.window (now - cfg.window)).length)) ∧
    (∀ (cfg : RLConfig) (ts : List Int),
      List.Pairwise (fun a b => a < b ∧ b < a + cfg.window) ts →
      (processReqs cfg ⟨[], none⟩ ts).2 =
        (List.range ts.length).map (fun i => decide (cfg.requests ≤ i))) ∧
    (∀ (cfg : RLConfig) (s : RLState) (now : Int),
      0 < cfg.requests →
      (∀ x ∈ s.window, 0 ≤ x ∧ x ≤ now - cfg.window) →
      (slidingCheck cfg s now).1.1 = false) := by
  refine ⟨slidingCheck_spec, ?_, slidingCheck_allows_after_gap⟩
  intro cfg ts hts
  rw [processReqs_flags cfg ts [] none (by simp) (by simp) hts]
  simp

/-- Witness for C2 at concrete inputs: with limit 2, window 300, requests at
times 0, 1, 2 give allowed, allowed, rejected; and with the `auth:login`
config a request at time 400 over a window holding only the entry 0 is
allowed again. -/
theorem rate_limit_sliding_window_witness :
    (processReqs ⟨2, 300⟩ ⟨[], none⟩ [0, 1, 2]).2 = [false, false, true] ∧
    (slidingCheck ⟨5, 300⟩ ⟨[0], some 301⟩ 400).1.1 = false := by
  refine ⟨(rate_limit_sliding_window.2.1 ⟨2, 300⟩ [0, 1, 2]
      (by decide)).trans (by decide),
    rate_limit_sliding_window.2.2 ⟨5, 300⟩ ⟨[0], some 301⟩ 400 (by decide)
      (by decide)⟩

/-! ## C9 — rejected checks still write to the store -/

/-- C9 counterexample: a rejected check whose second is already recorded and
whose prune removes nothing leaves the store state literally unchanged (the
zadd overwrites the existing member, the expire resets the TTL to the value
it already has), so "a rejected request does not leave the window state
unchanged" fails as a universal statement. -/
theorem rate_limit_reject_unchanged_counterexample :
    (slidingCheck ⟨5, 300⟩ ⟨[96, 97, 98, 99, 100], some 401⟩ 100).1.1 = true ∧
    (slidingCheck ⟨5, 300⟩ ⟨[96, 97, 98, 99, 100], some 401⟩ 100).2 =
      ⟨[96, 97, 98, 99, 100], some 401⟩ := by decide

/-- C9 (amended): every check that reaches the store executes the zadd and
the expire whatever the outcome — afterwards the window contains the current
timestamp and the TTL is reset to window+1 — and the window genuinely changes
whenever the current second was not already recorded; only a same-second
duplicate with nothing to prune can leave the set unchanged. -/
theorem rate_limit_mutates_on_reject (cfg : RLConfig) (s : RLState)
    (now : Int) :
    now ∈ (slidingCheck cfg s now).2.window ∧
    (slidingCheck cfg s now).2.expires_at = some (now + cfg.window + 1) ∧
    (now ∉ s.window → (slidingCheck cfg s now).2.window ≠ s.window) := by
  obtain ⟨hw, he, _⟩ := slidingCheck_spec cfg s now
  refine ⟨hw ▸ mem_zaddNow _ _, he, ?_⟩
  intro hnm heq
  exact hnm (heq ▸ (hw ▸ mem_zaddNow (zremrange s.window (now - cfg.window))
    now))

/-- Witness for C9: with a zero cap (every check rejected) and an empty
window, the check at time 5 records 5 in the window, resets the TTL, and
changes the state. -/
theorem rate_limit_mutates_on_reject_witness :
    5 ∈ (slidingCheck ⟨0, 300⟩ ⟨[], none⟩ 5).2.window ∧
    (slidingCheck ⟨0, 300⟩ ⟨[], none⟩ 5).2.expires_at = some 306 ∧
    (slidingCheck ⟨0, 300⟩ ⟨[], none⟩ 5).2.window ≠ ([] : List Int) := by
  obtain ⟨h1, h2, h3⟩ := rate_limit_mutates_on_reject ⟨0, 300⟩ ⟨[], none⟩ 5
  exact ⟨h1, h2, h3 (by decide)⟩

/-! ## Login-flow lemmas -/

/-- The row `find?` returns by username carries that username. -/
lemma find?_username_eq {users : List UserRec} {uname : String} {u : UserRec}
    (h : users.find? (fun v => v.username == uname) = some u) :
    u.username = uname := by
  have := List.find?_some h
  simpa using this

/-- Replacing the matched row leaves it the row `find?` returns. -/
lemma find?_update {users : List UserRec} {uname : String} {u u' : UserRec}
    (hfind : users.find? (fun v => v.username == uname) = some u)
    (hname : u'.username = uname) :
    (updateUserByUsername users uname u').find?
      (fun v => v.username == uname) = some u' := by
  induction users with
  | nil => simp at hfind
  | cons a l ih =>
      unfold updateUserByUsername
      simp only [List.map_cons]
      by_cases ha : (a.username == uname) = true
      · rw [if_pos ha, List.find?_cons_of_pos _ (by simp [hname])]
      · rw [if_neg ha, List.find?_cons_of_neg _ (by simp_all)]
        rw [List.find?_cons_of_neg _ (by simp_all)] at hfind
        simpa [updateUserByUsername] using ih hfind

/-- A login attempt with a wrong password on an unlocked account: 401
"Invalid credentials", the failure counter incremented, the lock set exactly
when the counter reaches 5, no session, no tokens (auth.py lines 166-185). -/
lemma login_wrong_password
    (totp : Option String → String → Bool) (rolesOf : String → List String)
    (st : AuthState) (req : LoginRequest) (ctx : ClientCtx) (fresh : Fresh)
    (now : Int) (u : UserRec)
    (hfind : st.users.find? (fun v => v.username == req.username) = some u)
    (hlock : ∀ T, u.locked_until = some T → T ≤ now)
    (hpw : verify_password req.password u.hashed_password = false) :
    (login totp rolesOf st req ctx fresh now).response =
      .error "Invalid credentials" ∧
    (login totp rolesOf st req ctx fresh now).state.users =
      updateUserByUsername st.users req.username
        { u with
          failed_login_attempts := u.failed_login_attempts + 1
          locked_until := if u.failed_login_attempts + 1 ≥ 5
            then some (now + 30 * 60) else u.locked_until } ∧
    (login totp rolesOf st req ctx fresh now).state.sessions = st.sessions ∧
    (login totp rolesOf st req ctx fresh now).minted = [] := by
  have hlocked : (match u.locked_until with
      | some t => decide (t > now)
      | none => false) = false := by
    cases hl : u.locked_until with
    | none => rfl
    | some T => simpa using not_lt.mpr (hlock T hl)
  simp [login, hfind, hlocked, hpw]

/-- A login attempt on an account whose lock lies in the future is rejected
as "Invalid credentials" with no account mutation, whatever the supplied
password (auth.py lines 153-163). -/
lemma login_locked_rejects
    (totp : Option String → String → Bool) (rolesOf : String → List String)
    (st : AuthState) (req : LoginRequest) (ctx : ClientCtx) (fresh : Fresh)
    (now : Int) (u : UserRec) (T : Int)
    (hfind : st.users.find? (fun v => v.username == req.username) = some u)
    (hT : u.locked_until = some T) (hnow : now < T) :
    (login totp rolesOf st req ctx fresh now).response =
      .error "Invalid credentials" ∧
    (login totp rolesOf st req ctx fresh now).state.users = st.users ∧
    (login totp rolesOf st req ctx fresh now).state.sessions = st.sessions ∧
    (login totp rolesOf st req ctx fresh now).minted = [] := by
  simp [login, hfind, hT, hnow]

/-- Restatement of `login_wrong_password` through `find?`: the updated row is what
a subsequent lookup of the same username returns. -/
lemma login_wrong_password_find
    (totp : Option String → String → Bool) (rolesOf : String → List String)
    (st : AuthState) (req : LoginRequest) (ctx : ClientCtx) (fresh : Fresh)
    (now : Int) (u : UserRec)
    (hfind : st.users.find? (fun v => v.username == req.username) = some u)
    (hlock : ∀ T, u.locked_until = some T → T ≤ now)
    (hpw : verify_password req.password u.hashed_password = false) :
    (login totp rolesOf st req ctx fresh now).response =
      .error "Invalid credentials" ∧
    (login totp rolesOf st req ctx fresh now).state.users.find?
        (fun v => v.username == req.username) =
      some { u with
        failed_login_attempts := u.failed_login_attempts + 1
        locked_until := if u.failed_login_attempts + 1 ≥ 5
          then some (now + 30 * 60) else u.locked_until } := by
  obtain ⟨h1, h2, _, _⟩ :=
    login_wrong_password totp rolesOf st req ctx fresh now u hfind hlock hpw
  refine ⟨h1, ?_⟩
  rw [h2]
  exact find?_update hfind (by simpa using find?_username_eq hfind)

/-- Replacing one row by an invariant-satisfying row preserves the invariant
across the table. -/
lemma lockInv_update {users : List UserRec} {uname : String} {u' : UserRec}
    (hinv : ∀ v ∈ users, lockInv v) (hnew : lockInv u') :
    ∀ x ∈ updateUserByUsername users uname u', lockInv x := by
  intro x hx
  unfold updateUserByUsername at hx
  obtain ⟨v, hv, hvx⟩ := List.mem_map.mp hx
  by_cases hc : (v.username == uname) = true
  · rw [if_pos hc] at hvx
    exact hvx ▸ hnew
  · rw [if_neg hc] at hvx
    exact hvx ▸ hinv v hv

/-- Every branch of the login flow preserves the lock invariant on every
account row. -/
lemma login_preserves_lockInv
    (totp : Option String → String → Bool) (rolesOf : String → List String)
    (st : AuthState) (req : LoginRequest) (ctx : ClientCtx) (fresh : Fresh)
    (now : Int) (hinv : ∀ v ∈ st.users, lockInv v) :
    ∀ x ∈ (login totp rolesOf st req ctx fresh now).state.users,
      lockInv x := by
  intro x hx
  rcases hfind : st.users.find? (fun v => v.username == req.username)
    with _ | u
  · simp only [login, hfind] at hx
    exact hinv x hx
  · have hu := List.mem_of_find?_eq_some hfind
    have hul := hinv u hu
    simp only [login, hfind] at hx
    revert hx
    repeat' split
    all_goals intro hx
    all_goals first
      | exact hinv x hx
      | (refine lockInv_update hinv ?_ x hx
         unfold lockInv at hul ⊢
         intro hln
         simp_all
         try omega)

/-! ## C3 — five wrong passwords lock the account for 30 minutes -/

/-- C3: starting from a clean account (0 failures, no lock), five consecutive
wrong-password attempts leave the row with `failed_login_attempts = 5` and
`locked_until = t₅ + 30 minutes`; and while that lock lies in the future, a
further attempt — with any password, the correct one included — is rejected
as "Invalid credentials" with no account mutation and no tokens minted. -/
theorem lockout_after_five_failures
    (totp : Option String → String → Bool) (rolesOf : String → List String)
    (st : AuthState) (uname : String) (u : UserRec) (ctx : ClientCtx)
    (f₁ f₂ f₃ f₄ f₅ f₆ : Fresh) (p₁ p₂ p₃ p₄ p₅ p₆ : String)
    (t₁ t₂ t₃ t₄ t₅ t₆ : Int)
    (hfind : st.users.find? (fun v => v.username == uname) = some u)
    (hf : u.failed_login_attempts = 0) (hl : u.locked_until = none)
    (hw₁ : verify_password p₁ u.hashed_password = false)
    (hw₂ : verify_password p₂ u.hashed_password = false)
    (hw₃ : verify_password p₃ u.hashed_password = false)
    (hw₄ : verify_password p₄ u.hashed_password = false)
    (hw₅ : verify_password p₅ u.hashed_password = false)
    (ht : t₆ < t₅ + 30 * 60) :
    let r₁ := login totp rolesOf st ⟨uname, p₁, none⟩ ctx f₁ t₁
    let r₂ := login totp rolesOf r₁.state ⟨uname, p₂, none⟩ ctx f₂ t₂
    let r₃ := login totp rolesOf r₂.state ⟨uname, p₃, none⟩ ctx f₃ t₃
    let r₄ := login totp rolesOf r₃.state ⟨uname, p₄, none⟩ ctx f₄ t₄
    let r₅ := login totp rolesOf r₄.state ⟨uname, p₅, none⟩ ctx f₅ t₅
    let r₆ := login totp rolesOf r₅.state ⟨uname, p₆, none⟩ ctx f₆ t₆
    r₅.state.users.find? (fun v => v.username == uname) =
      some { u with failed_login_attempts := 5
                    locked_until := some (t₅ + 30 * 60) } ∧
    r₆.response = Except.error "Invalid credentials" ∧
    r₆.state.users = r₅.state.users ∧
    r₆.minted = [] := by
  intro r₁ r₂ r₃ r₄ r₅ r₆
  obtain ⟨e₁, g₁⟩ := login_wrong_password_find totp rolesOf st
    ⟨uname, p₁, none⟩ ctx f₁ t₁ u hfind (by simp [hl]) hw₁
  obtain ⟨e₂, g₂⟩ := login_wrong_password_find totp rolesOf r₁.state
    ⟨uname, p₂, none⟩ ctx f₂ t₂ _ g₁ (by simp [hf, hl]) (by simpa using hw₂)
  obtain ⟨e₃, g₃⟩ := login_wrong_password_find totp rolesOf r₂.state
    ⟨uname, p₃, none⟩ ctx f₃ t₃ _ g₂ (by simp [hf, hl]) (by simpa using hw₃)
  obtain ⟨e₄, g₄⟩ := login_wrong_password_find totp rolesOf r₃.state
    ⟨uname, p₄, none⟩ ctx f₄ t₄ _ g₃ (by simp [hf, hl]) (by simpa using hw₄)
  obtain ⟨e₅, g₅⟩ := login_wrong_password_find totp rolesOf r₄.state
    ⟨uname, p₅, none⟩ ctx f₅ t₅ _ g₄ (by simp [hf, hl]) (by simpa using hw₅)
  have g₅pretty : r₅.state.users.find? (fun v => v.username == uname) =
      some { u with failed_login_attempts := 5
                    locked_until := some (t₅ + 30 * 60) } := by
    refine g₅.trans ?_
    simp [hf, hl]
  obtain ⟨e₆, g₆u, g₆s, g₆m⟩ := login_locked_rejects totp rolesOf r₅.state
    ⟨uname, p₆, none⟩ ctx f₆ t₆ _ (t₅ + 30 * 60) g₅pretty (by simp) ht
  exact ⟨g₅pretty, e₆, g₆u, g₆m⟩

/-- Witness for C3: five wrong attempts at times 1..5 lock "alice" until
second 1805, and the correct password at time 6 is still rejected. -/
theorem lockout_after_five_failures_witness :
    (c3Login (c3Login (c3Login (c3Login (c3Login ⟨[c3User], [], []⟩
        "x" 1).state "x" 2).state "x" 3).state "x" 4).state
        "x" 5).state.users.find? (fun v => v.username == "alice") =
      some ⟨"u-1", "alice", "a@example.com", "Alice", ⟨"Secret", false⟩, 5,
        some 1805, false, none, true, none⟩ ∧
    (c3Login (c3Login (c3Login (c3Login (c3Login (c3Login ⟨[c3User], [], []⟩
        "x" 1).state "x" 2).state "x" 3).state "x" 4).state "x" 5).state
        "Secret" 6).response = Except.error "Invalid credentials" := by
  have h := lockout_after_five_failures (fun _ _ => false) (fun _ => [])
    ⟨[c3User], [], []⟩ "alice" c3User ⟨"ip", "ua"⟩
    ⟨"sid", "stok", "j1", "j2"⟩ ⟨"sid", "stok", "j1", "j2"⟩
    ⟨"sid", "stok", "j1", "j2"⟩ ⟨"sid", "stok", "j1", "j2"⟩
    ⟨"sid", "stok", "j1", "j2"⟩ ⟨"sid", "stok", "j1", "j2"⟩
    "x" "x" "x" "x" "x" "Secret" 1 2 3 4 5 6
    (by decide) (by decide) (by decide) (by decide) (by decide) (by decide)
    (by decide) (by decide) (by decide)
  exact ⟨h.1, h.2.1⟩

/-! ## C10 — MFA-enabled login without a token returns the MFA challenge -/

/-- C10: when the account has MFA enabled, the password is correct, the
account is not locked, and no MFA token was supplied, login returns the
success-shaped challenge response — empty access and refresh tokens (`none`
models the empty string), `expires_in = 0`, `mfa_required = true` — and no
session row is created and no token is minted on this branch (auth.py lines
191-204). -/
theorem mfa_challenge_response
    (totp : Option String → String → Bool) (rolesOf : String → List String)
    (st : AuthState) (req : LoginRequest) (ctx : ClientCtx) (fresh : Fresh)
    (now : Int) (u : UserRec)
    (hfind : st.users.find? (fun v => v.username == req.username) = some u)
    (hlock : ∀ T, u.locked_until = some T → T ≤ now)
    (hpw : verify_password req.password u.hashed_password = true)
    (hmfa : u.mfa_enabled = true) (htok : req.mfa_token = none) :
    (login totp rolesOf st req ctx fresh now).response =
      .ok ⟨none, none, "bearer", 0, true, false⟩ ∧
    (login totp rolesOf st req ctx fresh now).state.sessions =
      st.sessions ∧
    (login totp rolesOf st req ctx fresh now).minted = [] := by
  have hlocked : (match u.locked_until with
      | some t => decide (t > now)
      | none => false) = false := by
    cases hl : u.locked_until with
    | none => rfl
    | some T => simpa using not_lt.mpr (hlock T hl)
  simp [login, hfind, hlocked, hpw, hmfa, htok]

/-- Witness for C10: "bob" has MFA enabled and supplies the right password
and no TOTP token; the response is the challenge and nothing is persisted or
minted. -/
theorem mfa_challenge_response_witness :
    (login (fun _ _ => false) (fun _ => [])
      ⟨[⟨"u-2", "bob", "b@example.com", "Bob", ⟨"Passw0rd", false⟩, 0, none,
        true, some "JBSWY3DP", true, none⟩], [], []⟩
      ⟨"bob", "Passw0rd", none⟩ ⟨"ip", "ua"⟩ ⟨"sid", "stok", "j1", "j2"⟩
      0).response = .ok ⟨none, none, "bearer", 0, true, false⟩ ∧
    (login (fun _ _ => false) (fun _ => [])
      ⟨[⟨"u-2", "bob", "b@example.com", "Bob", ⟨"Passw0rd", false⟩, 0, none,
        true, some "JBSWY3DP", true, none⟩], [], []⟩
      ⟨"bob", "Passw0rd", none⟩ ⟨"ip", "ua"⟩ ⟨"sid", "stok", "j1", "j2"⟩
      0).minted = [] := by
  have h := mfa_challenge_response (fun _ _ => false) (fun _ => [])
    ⟨[⟨"u-2", "bob", "b@example.com", "Bob", ⟨"Passw0rd", false⟩, 0, none,
      true, some "JBSWY3DP", true, none⟩], [], []⟩
    ⟨"bob", "Passw0rd", none⟩ ⟨"ip", "ua"⟩ ⟨"sid", "stok", "j1", "j2"⟩ 0
    ⟨"u-2", "bob", "b@example.com", "Bob", ⟨"Passw0rd", false⟩, 0, none,
      true, some "JBSWY3DP", true, none⟩
    (by decide) (by decide) (by decide) (by decide) (by decide)
  exact ⟨h.1, h.2.2⟩

/-! ## C7 — risk score formula and when it is attached to the audit event -/

/-- C7 counterexample: for a login attempt with an unknown username the login
endpoint never invokes `calculate_risk_score` — the score is computed only
inside `if user:` (auth.py lines 144-151) — and the audit event records the
initial literal 0, so "on every login attempt, including an unknown
username, this score is computed and attached" fails. -/
theorem risk_score_unknown_user_counterexample :
    (login (fun _ _ => false) (fun _ => []) ⟨[], [], []⟩
      ⟨"alice", "pw", none⟩ ⟨"1.2.3.4", "ua"⟩ ⟨"sid", "stok", "j1", "j2"⟩
      0).risk_computed_for = none ∧
    ((login (fun _ _ => false) (fun _ => []) ⟨[], [], []⟩
      ⟨"alice", "pw", none⟩ ⟨"1.2.3.4", "ua"⟩ ⟨"sid", "stok", "j1", "j2"⟩
      0).state.audits.head?.map (fun a => a.risk_score)) = some 0 := by
  decide

/-- C7 (amended): the risk score is the pure clamped additive heuristic
`min(min(failed*10, 30) + 20?unusual + 25?newDevice, 100)`, bounded by 100;
on every login attempt whose account row exists the scorer is invoked (with
`new_device = true` and `unusual_time` defaulted false) and its value is
attached to the audit event on every branch; for an unknown username the
scorer is not invoked and the audit event carries the literal 0. -/
theorem risk_score_formula_and_audit :
    (∀ (ip ua : String) (n : Nat) (ut nd : Bool),
      calculate_risk_score ip ua n ut nd =
        min (min (n * 10) 30 + (if ut then 20 else 0) +
          (if nd then 25 else 0)) 100 ∧
      calculate_risk_score ip ua n ut nd ≤ 100) ∧
    (∀ (totp : Option String → String → Bool)
        (rolesOf : String → List String) (st : AuthState)
        (req : LoginRequest) (ctx : ClientCtx) (fresh : Fresh) (now : Int)
        (u : UserRec),
      st.users.find? (fun v => v.username == req.username) = some u →
      (login totp rolesOf st req ctx fresh now).risk_computed_for =
        some u.id ∧
      (login totp rolesOf st req ctx fresh now).state.audits.head?.map
          (fun a => a.risk_score) =
        some (calculate_risk_score ctx.ip ctx.user_agent
          u.failed_login_attempts false true)) ∧
    (∀ (totp : Option String → String → Bool)
        (rolesOf : String → List String) (st : AuthState)
        (req : LoginRequest) (ctx : ClientCtx) (fresh : Fresh) (now : Int),
      st.users.find? (fun v => v.username == req.username) = none →
      (login totp rolesOf st req ctx fresh now).risk_computed_for = none ∧
      (login totp rolesOf st req ctx fresh now).state.audits.head?.map
          (fun a => a.risk_score) = some 0) := by
  refine ⟨?_, ?_, ?_⟩
  · intro ip ua n ut nd
    constructor
    · simp [calculate_risk_score]
    · exact min_le_right _ _
  · intro totp rolesOf st req ctx fresh now u hfind
    simp only [login, hfind]
    repeat' split
    all_goals simp
  · intro totp rolesOf st req ctx fresh now hfind
    simp [login, hfind]

/-- Witness for C7: for "bob" (0 failures) the scorer runs and the audit
event carries 25 = 0 + 0 + 25 (new device); for the unknown user "nobody"
the scorer does not run and the audit event carries 0. -/
theorem risk_score_formula_and_audit_witness :
    calculate_risk_score "ip" "ua" 2 true false = 40 ∧
    (login (fun _ _ => false) (fun _ => [])
      ⟨[⟨"u-2", "bob", "b@example.com", "Bob", ⟨"Passw0rd", false⟩, 0, none,
        false, none, true, none⟩], [], []⟩
      ⟨"bob", "Passw0rd", none⟩ ⟨"ip", "ua"⟩ ⟨"sid", "stok", "j1", "j2"⟩
      0).state.audits.head?.map (fun a => a.risk_score) = some 25 ∧
    (login (fun _ _ => false) (fun _ => [])
      ⟨[⟨"u-2", "bob", "b@example.com", "Bob", ⟨"Passw0rd", false⟩, 0, none,
        false, none, true, none⟩], [], []⟩
      ⟨"nobody", "pw", none⟩ ⟨"ip", "ua"⟩ ⟨"sid", "stok", "j1", "j2"⟩
      0).risk_computed_for = none := by
  refine ⟨((risk_score_formula_and_audit.1 "ip" "ua" 2 true false).1).trans
      (by decide), ?_, ?_⟩
  · exact ((risk_score_formula_and_audit.2.1 (fun _ _ => false)
      (fun _ => [])
      ⟨[⟨"u-2", "bob", "b@example.com", "Bob", ⟨"Passw0rd", false⟩, 0, none,
        false, none, true, none⟩], [], []⟩
      ⟨"bob", "Passw0rd", none⟩ ⟨"ip", "ua"⟩ ⟨"sid", "stok", "j1", "j2"⟩ 0
      ⟨"u-2", "bob", "b@example.com", "Bob", ⟨"Passw0rd", false⟩, 0, none,
        false, none, true, none⟩ (by decide)).2).trans (by decide)
  · exact (risk_score_formula_and_audit.2.2 (fun _ _ => false)
      (fun _ => [])
      ⟨[⟨"u-2", "bob", "b@example.com", "Bob", ⟨"Passw0rd", false⟩, 0, none,
        false, none, true, none⟩], [], []⟩
      ⟨"nobody", "pw", none⟩ ⟨"ip", "ua"⟩ ⟨"sid", "stok", "j1", "j2"⟩ 0
      (by decide)).1

/-! ## C8 — a set lock implies the failure counter reached the threshold -/

/-- C8: every account the login flow can reach satisfies the invariant
"locked_until set ⇒ failed_login_attempts ≥ 5": a fresh account satisfies
it, and every branch of the login flow — the only mutator of these fields —
preserves it on every row (the lock is set only when the incremented counter
reaches 5, and the successful branch clears the lock exactly when it resets
the counter). -/
theorem lock_invariant :
    (∀ (id uname email name : String) (h : PHash) (mfaE : Bool)
        (sec : Option String),
      lockInv (freshAccount id uname email name h mfaE sec)) ∧
    (∀ (totp : Option String → String → Bool)
        (rolesOf : String → List String) (st : AuthState)
        (req : LoginRequest) (ctx : ClientCtx) (fresh : Fresh) (now : Int),
      (∀ v ∈ st.users, lockInv v) →
      ∀ x ∈ (login totp rolesOf st req ctx fresh now).state.users,
        lockInv x) := by
  refine ⟨?_, login_preserves_lockInv⟩
  intro id uname email name h mfaE sec
  simp [freshAccount, lockInv]

/-- Witness for C8: the account "carl" at 4 failures gets locked by a fifth
wrong password at time 7 — the resulting row (5 failures, locked until 1807)
satisfies the invariant — and a fresh account satisfies it too. -/
theorem lock_invariant_witness :
    lockInv ⟨"u-3", "carl", "c@example.com", "Carl", ⟨"Pw", false⟩, 5,
      some 1807, false, none, true, none⟩ ∧
    lockInv (freshAccount "u-4" "dana" "d@example.com" "Dana" ⟨"Pw", false⟩
      false none) := by
  refine ⟨?_, lock_invariant.1 "u-4" "dana" "d@example.com" "Dana"
    ⟨"Pw", false⟩ false none⟩
  exact lock_invariant.2 (fun _ _ => false) (fun _ => [])
    ⟨[⟨"u-3", "carl", "c@example.com", "Carl", ⟨"Pw", false⟩, 4, none,
      false, none, true, none⟩], [], []⟩
    ⟨"carl", "x", none⟩ ⟨"ip", "ua"⟩ ⟨"sid", "stok", "j1", "j2"⟩ 7
    (by
      intro v hv
      rw [List.mem_singleton] at hv
      subst hv
      simp [lockInv])
    ⟨"u-3", "carl", "c@example.com", "Carl", ⟨"Pw", false⟩, 5, some 1807,
      false, none, true, none⟩
    (by decide)

/-! ## C1 — the per-request access gate versus freshly minted tokens -/

/-- C1: the token minted by `create_access_token` for an existing, active
account verifies (valid signature, type and claims) and the auth_deps gate
accepts it and returns the account — yet the endpoints/auth.py gate returns
401 for it, because building the `CurrentUser` parses the 22-character
url-safe jti with `uuid.UUID`, which always fails.  The per-request gate of
the auth router therefore rejects every token the login flow mints. -/
theorem access_gate_rejects_minted_token :
    isError (verify_token gateDemoToken "access" 0) = false ∧
    authDeps_get_current_user [gateDemoUser] gateDemoToken 0 =
      .ok gateDemoUser ∧
    gate_get_current_user [gateDemoUser] (fun _ => []) gateDemoToken 0 =
      .error "Invalid authentication credentials" := by
  refine ⟨rfl, rfl, rfl⟩

end OpenDenkaru
